import Mathlib

set_option maxHeartbeats 1000000

/-!
Shallow embedding of the `roux` crate's `Subreddit` module
(`src/subreddit/mod.rs`): a read-only Reddit client that builds query URLs,
issues one HTTP GET per operation, and decodes the JSON response into typed
entities.  The network and the JSON decoder are modelled by passing the
response of the single GET as an explicit argument; each operation returns
the client value after the call, the list of URLs it requested, and an
outcome (success, returned error, or panic).
-/

/-- Modelled from the spec: the error type `RouxError` lives in the crate's
`util` module, which is not among the sources.  Spec §7: "Single error
taxonomy with two origins: (a) transport failure ..., (b) decode failure". -/
inductive RouxError
  | network
  | parse
deriving DecidableEq

/-- Modelled from the spec: `FeedOption` lives in the crate's `util` module,
which is not among the sources.  Spec §3: "optional pagination/filter
parameters — `after` (cursor string), `before` (cursor string), `count`
(integer)". -/
structure FeedOption where
  after : Option String
  before : Option String
  count : Option Nat
deriving DecidableEq

/-- Modelled from the spec: `reqwest::Client` is an external collaborator; the
module treats it as an opaque shared HTTP client handle. -/
structure Client where
  id : Nat
deriving DecidableEq

/-- Modelled from the spec: `Client::new()`, the default HTTP client used by
`Subreddit::new`. -/
def Client.new : Client := ⟨0⟩

/-- Modelled from the spec: `SubredditComments` (responses module, not among
the sources) — "a comment tree page ... opaque passthrough". -/
structure SubredditComments where
  payload : String
deriving DecidableEq

/-- Modelled from the spec: `Moderators` (responses module, not among the
sources) — "a list of moderator identities ... opaque passthrough fields". -/
structure Moderators where
  payload : String
deriving DecidableEq

/-- Modelled from the spec: `Submissions` (responses module, not among the
sources) — "a page of posts ... opaque passthrough fields". -/
structure Submissions where
  payload : String
deriving DecidableEq

/-- The JSON body of an HTTP response, abstracted to the shapes the decoders
in this module distinguish: an array of comment payloads, a single comment
payload, a submissions listing, a moderator listing, or anything else. -/
inductive Body
  | commentSeq (xs : List SubredditComments)
  | commentSingle (x : SubredditComments)
  | submissionsBody (s : Submissions)
  | moderatorsBody (m : Moderators)
  | malformed
deriving DecidableEq

/-- Result of the single HTTP GET an operation performs: either a
transport-level failure (connection error, timeout, error status surfaced by
`send().await?`) or a successfully received body. -/
inductive HttpResponse
  | failure
  | success (b : Body)
deriving DecidableEq

/-- How a call ends: a returned `Ok` value, a returned `Err` value, or a Rust
panic (e.g. `Option::unwrap` on `None`). -/
inductive Outcome (α : Type)
  | ok (a : α)
  | err (e : RouxError)
  | panic
deriving DecidableEq

/-- `.json::<Vec<SubredditComments>>()`: decoding the body as a sequence of
comment payloads. -/
def decodeCommentSeq : Body → Option (List SubredditComments)
  | .commentSeq xs => some xs
  | _ => none

/-- `.json::<SubredditComments>()`: decoding the body as a single comment
payload. -/
def decodeComment : Body → Option SubredditComments
  | .commentSingle x => some x
  | _ => none

/-- `.json::<Submissions>()`. -/
def decodeSubmissions : Body → Option Submissions
  | .submissionsBody s => some s
  | _ => none

/-- `.json::<Moderators>()`. -/
def decodeModerators : Body → Option Moderators
  | .moderatorsBody m => some m
  | _ => none

/-- Does the character list start with the pattern?  Models the matching step
of Rust's `str::contains`. -/
def startsWithL : List Char → List Char → Bool
  | _, [] => true
  | [], _ :: _ => false
  | c :: cs, p :: ps => c == p && startsWithL cs ps

/-- Does the character list contain the pattern as a contiguous substring?
Models Rust's `str::contains` (`url.contains("comments/")`, line 158). -/
def containsL : List Char → List Char → Bool
  | [], p => p.isEmpty
  | c :: cs, p => startsWithL (c :: cs) p || containsL cs p

/-- Rust `str::contains` on strings, via the underlying character lists. -/
def strContains (s pat : String) : Bool := containsL s.data pat.data

/-- The `Subreddit` struct (lines 69–74): subreddit name, precomputed base
URL, HTTP client handle. -/
structure Subreddit where
  name : String
  url : String
  client : Client
deriving DecidableEq

/-- `Subreddit::new_with_http_client` (lines 83–91): stores the name and the
base URL `https://www.reddit.com/r/{name}`. -/
def Subreddit.new_with_http_client (name : String) (http_client : Client) : Subreddit :=
  { name := name
    url := "https://www.reddit.com/r/" ++ name
    client := http_client }

/-- `Subreddit::new` (lines 78–80): delegates to `new_with_http_client` with a
default client. -/
def Subreddit.new (name : String) : Subreddit :=
  Subreddit.new_with_http_client name Client.new

/-- Result of one operation: the client after the call (the methods take
`&self`, so the embedding threads the value through), the URLs requested, and
the outcome. -/
structure CallResult (α : Type) where
  self : Subreddit
  requests : List String
  outcome : Outcome α
deriving DecidableEq

/-- The URL built by `get_feed` (lines 110–127): start from
`{url}/{ty}.json?limit={limit}`, then if options are present append
`&after={after}` when `after` is set, else `&before={before}` when `before`
is set, and independently `&count={count}` when `count` is set. -/
def get_feed_url (url ty : String) (limit : Nat) (options : Option FeedOption) : String :=
  let u := url ++ "/" ++ ty ++ ".json?limit=" ++ toString limit
  match options with
  | none => u
  | some option =>
    let u :=
      match option.after with
      | some a => u ++ "&after=" ++ a
      | none =>
        match option.before with
        | some b => u ++ "&before=" ++ b
        | none => u
    match option.count with
    | some c => u ++ "&count=" ++ toString c
    | none => u

/-- `Subreddit::get_feed` (lines 104–136): build the URL, GET it once, decode
the body as `Submissions`; `?` propagates transport and decode errors. -/
def Subreddit.get_feed (s : Subreddit) (ty : String) (limit : Nat)
    (options : Option FeedOption) (resp : HttpResponse) : CallResult Submissions :=
  let url := get_feed_url s.url ty limit options
  { self := s
    requests := [url]
    outcome :=
      match resp with
      | .failure => .err .network
      | .success b =>
        match decodeSubmissions b with
        | none => .err .parse
        | some subs => .ok subs }

/-- The URL built by `get_comment_feed` (lines 144–152): start from
`{url}/{ty}.json?`, then append `&depth={depth}` if set, then
`&limit={limit}` if set. -/
def get_comment_feed_url (url ty : String) (depth limit : Option Nat) : String :=
  let u := url ++ "/" ++ ty ++ ".json?"
  let u :=
    match depth with
    | some d => u ++ "&depth=" ++ toString d
    | none => u
  match limit with
  | some l => u ++ "&limit=" ++ toString l
  | none => u

/-- `Subreddit::get_comment_feed` (lines 138–177): build the URL; if it
contains `comments/`, decode the body as `Vec<SubredditComments>` and return
`comments.pop().unwrap()` (the last element; `unwrap` panics when the vector
is empty); otherwise decode the body as a single `SubredditComments`. -/
def Subreddit.get_comment_feed (s : Subreddit) (ty : String)
    (depth limit : Option Nat) (resp : HttpResponse) : CallResult SubredditComments :=
  let url := get_comment_feed_url s.url ty depth limit
  { self := s
    requests := [url]
    outcome :=
      if strContains url "comments/" then
        match resp with
        | .failure => .err .network
        | .success b =>
          match decodeCommentSeq b with
          | none => .err .parse
          | some comments =>
            match comments.getLast? with
            | none => .panic
            | some last => .ok last
      else
        match resp with
        | .failure => .err .network
        | .success b =>
          match decodeComment b with
          | none => .err .parse
          | some x => .ok x }

/-- `Subreddit::moderators` (lines 94–102): GET
`{url}/about/moderators/.json` and decode the body as `Moderators`. -/
def Subreddit.moderators (s : Subreddit) (resp : HttpResponse) : CallResult Moderators :=
  { self := s
    requests := [s.url ++ "/about/moderators/.json"]
    outcome :=
      match resp with
      | .failure => .err .network
      | .success b =>
        match decodeModerators b with
        | none => .err .parse
        | some m => .ok m }

/-- `Subreddit::hot` (lines 180–186). -/
def Subreddit.hot (s : Subreddit) (limit : Nat) (options : Option FeedOption)
    (resp : HttpResponse) : CallResult Submissions :=
  s.get_feed "hot" limit options resp

/-- `Subreddit::rising` (lines 189–195). -/
def Subreddit.rising (s : Subreddit) (limit : Nat) (options : Option FeedOption)
    (resp : HttpResponse) : CallResult Submissions :=
  s.get_feed "rising" limit options resp

/-- `Subreddit::top` (lines 198–205). -/
def Subreddit.top (s : Subreddit) (limit : Nat) (options : Option FeedOption)
    (resp : HttpResponse) : CallResult Submissions :=
  s.get_feed "top" limit options resp

/-- `Subreddit::latest` (lines 208–214): listing type `new`. -/
def Subreddit.latest (s : Subreddit) (limit : Nat) (options : Option FeedOption)
    (resp : HttpResponse) : CallResult Submissions :=
  s.get_feed "new" limit options resp

/-- `Subreddit::latest_comments` (lines 217–223): comment feed with path
segment `comments`. -/
def Subreddit.latest_comments (s : Subreddit) (depth limit : Option Nat)
    (resp : HttpResponse) : CallResult SubredditComments :=
  s.get_comment_feed "comments" depth limit resp

/-- `Subreddit::article_comments` (lines 226–234): comment feed with path
segment `comments/{article}`. -/
def Subreddit.article_comments (s : Subreddit) (article : String)
    (depth limit : Option Nat) (resp : HttpResponse) : CallResult SubredditComments :=
  s.get_comment_feed ("comments/" ++ article) depth limit resp

/-- The sequence-decoding branch of `get_comment_feed` (lines 158–167),
described by itself: deserialize the body as a sequence of comment payloads
and return the last element, discarding those before it (panicking when the
sequence is empty). -/
def seqBranch : HttpResponse → Outcome SubredditComments
  | .failure => .err .network
  | .success b =>
    match decodeCommentSeq b with
    | none => .err .parse
    | some comments =>
      match comments.getLast? with
      | none => .panic
      | some last => .ok last

/-- The single-object branch of `get_comment_feed` (lines 168–176), described
by itself: deserialize the body directly as one comment payload. -/
def singleBranch : HttpResponse → Outcome SubredditComments
  | .failure => .err .network
  | .success b =>
    match decodeComment b with
    | none => .err .parse
    | some x => .ok x

/-- What the `count` option contributes to a feed URL. -/
def countSuffix : Option Nat → String
  | none => ""
  | some c => "&count=" ++ toString c

/-- What the `depth` option contributes to a comment-feed URL. -/
def depthSuffix : Option Nat → String
  | none => ""
  | some d => "&depth=" ++ toString d

/-- What the `limit` option contributes to a comment-feed URL. -/
def limitSuffix : Option Nat → String
  | none => ""
  | some l => "&limit=" ++ toString l

/-! ### Substring lemmas for the branch predicate -/

theorem startsWithL_nil_pat (s : List Char) : startsWithL s [] = true := by
  cases s <;> rfl

theorem startsWithL_append_of (s b p : List Char) (h : startsWithL s p = true) :
    startsWithL (s ++ b) p = true := by
  induction p generalizing s with
  | nil => exact startsWithL_nil_pat _
  | cons q qs ih =>
    cases s with
    | nil => simp [startsWithL] at h
    | cons c cs =>
      simp only [startsWithL, Bool.and_eq_true] at h
      simp only [List.cons_append, startsWithL, Bool.and_eq_true]
      exact ⟨h.1, ih cs h.2⟩

theorem startsWithL_self (p t : List Char) : startsWithL (p ++ t) p = true := by
  induction p with
  | nil => exact startsWithL_nil_pat t
  | cons c cs ih =>
    simp only [List.cons_append, startsWithL, Bool.and_eq_true]
    exact ⟨by simp, ih⟩

theorem containsL_nil_pat (s : List Char) : containsL s [] = true := by
  cases s with
  | nil => rfl
  | cons c cs => simp [containsL, startsWithL]

theorem containsL_of_startsWithL (s p : List Char) (h : startsWithL s p = true) :
    containsL s p = true := by
  cases s with
  | nil =>
    cases p with
    | nil => rfl
    | cons q qs => simp [startsWithL] at h
  | cons c cs => simp [containsL, h]

theorem containsL_append_left (a s p : List Char) (h : containsL s p = true) :
    containsL (a ++ s) p = true := by
  induction a with
  | nil => exact h
  | cons x xs ih => simp [containsL, ih]

theorem containsL_append_right (s b p : List Char) (h : containsL s p = true) :
    containsL (s ++ b) p = true := by
  induction s with
  | nil =>
    have hp : p = [] := by
      cases p with
      | nil => rfl
      | cons q qs => simp [containsL] at h
    subst hp
    exact containsL_nil_pat b
  | cons c cs ih =>
    simp only [containsL, Bool.or_eq_true] at h
    simp only [List.cons_append, containsL, Bool.or_eq_true]
    rcases h with h | h
    · exact Or.inl (startsWithL_append_of (c :: cs) b p h)
    · exact Or.inr (ih h)

theorem strContains_append_left (a s p : String) (h : strContains s p = true) :
    strContains (a ++ s) p = true :=
  containsL_append_left a.data s.data p.data h

theorem strContains_append_right (s b p : String) (h : strContains s p = true) :
    strContains (s ++ b) p = true :=
  containsL_append_right s.data b.data p.data h

theorem strContains_self_append (p t : String) : strContains (p ++ t) p = true :=
  containsL_of_startsWithL (p.data ++ t.data) p.data (startsWithL_self p.data t.data)

/-- The outcome of `get_comment_feed` is exactly the branch selected by the
substring test on the constructed URL. -/
theorem get_comment_feed_outcome_eq (s : Subreddit) (ty : String)
    (dep lim : Option Nat) (resp : HttpResponse) :
    (s.get_comment_feed ty dep lim resp).outcome =
      if strContains (get_comment_feed_url s.url ty dep lim) "comments/" then seqBranch resp
      else singleBranch resp := rfl

/-- Appending the optional `depth`/`limit` suffixes preserves any substring of
the base comment-feed URL. -/
theorem strContains_comment_feed_url (url ty p : String) (dep lim : Option Nat)
    (h : strContains (url ++ "/" ++ ty ++ ".json?") p = true) :
    strContains (get_comment_feed_url url ty dep lim) p = true := by
  cases dep with
  | none =>
    cases lim with
    | none => simpa [get_comment_feed_url] using h
    | some l =>
      simp only [get_comment_feed_url]
      exact strContains_append_right _ _ _ (strContains_append_right _ _ _ h)
  | some d =>
    cases lim with
    | none =>
      simp only [get_comment_feed_url]
      exact strContains_append_right _ _ _ (strContains_append_right _ _ _ h)
    | some l =>
      simp only [get_comment_feed_url]
      exact strContains_append_right _ _ _ (strContains_append_right _ _ _
        (strContains_append_right _ _ _ (strContains_append_right _ _ _ h)))

/-- The URL built for `article_comments` always contains `comments/`. -/
theorem strContains_article_url (url article : String) (dep lim : Option Nat) :
    strContains (get_comment_feed_url url ("comments/" ++ article) dep lim) "comments/" = true := by
  apply strContains_comment_feed_url
  apply strContains_append_right
  exact strContains_append_left _ _ _ (strContains_self_append _ _)

/-- If the subreddit name contains a pattern, so does every URL built for
`latest_comments` on that subreddit. -/
theorem strContains_latest_url (name p : String) (dep lim : Option Nat)
    (h : strContains name p = true) :
    strContains (get_comment_feed_url ("https://www.reddit.com/r/" ++ name) "comments" dep lim)
      p = true := by
  apply strContains_comment_feed_url
  apply strContains_append_right
  apply strContains_append_right
  apply strContains_append_right
  exact strContains_append_left _ _ _ h

/-! ### Claims -/

/-- C1 — The claim says an empty decoded sequence yields a decode-error
result; the code instead panics: `comments.pop()` returns `None` and
`.unwrap()` panics (line 167).  This theorem evaluates the embedding at the
failing input: `article_comments` with a response body that is the valid
empty JSON sequence `[]` ends in a panic, not a returned error. -/
theorem article_comments_empty_seq_panics :
    ((Subreddit.new "astolfo").article_comments "abc123" none (some 25)
        (.success (.commentSeq []))).outcome = Outcome.panic := by decide

/-- C2 — Exactly one of two decode branches is taken, selected by whether the
constructed URL contains `comments/`: the sequence branch deserializes a
sequence of comment payloads and returns only its last element (discarding
all preceding ones), the other branch deserializes a single payload directly;
`article_comments` URLs always contain `comments/` and therefore take the
sequence branch. -/
theorem get_comment_feed_branch_selection (s : Subreddit) (ty article : String)
    (dep lim : Option Nat) (resp : HttpResponse) (xs : List SubredditComments)
    (x : SubredditComments) :
    ((s.get_comment_feed ty dep lim resp).outcome =
      if strContains (get_comment_feed_url s.url ty dep lim) "comments/" then seqBranch resp
      else singleBranch resp)
    ∧ strContains (get_comment_feed_url s.url ("comments/" ++ article) dep lim) "comments/" = true
    ∧ (s.article_comments article dep lim resp).outcome = seqBranch resp
    ∧ seqBranch (.success (.commentSeq (xs ++ [x]))) = .ok x
    ∧ singleBranch (.success (.commentSingle x)) = .ok x
    ∧ seqBranch (.success (.commentSingle x)) = .err .parse
    ∧ singleBranch (.success (.commentSeq xs)) = .err .parse := by
  refine ⟨get_comment_feed_outcome_eq s ty dep lim resp, strContains_article_url _ _ _ _,
    ?_, ?_, rfl, rfl, rfl⟩
  · show (s.get_comment_feed ("comments/" ++ article) dep lim resp).outcome = seqBranch resp
    rw [get_comment_feed_outcome_eq, strContains_article_url]
    rfl
  · simp [seqBranch, decodeCommentSeq, List.getLast?_concat]

/-- C3 — With options present, the feed query string gains `&after=<after>`
when `after` is set, else `&before=<before>` when `before` is set (when both
are set only `after` applies), and independently `&count=<count>` when
`count` is set; with no option field set (or no options), nothing beyond
`?limit=<limit>` is appended. -/
theorem get_feed_url_options (url ty : String) (limit : Nat) (a b : String)
    (ob : Option String) (oc : Option Nat) :
    get_feed_url url ty limit none = url ++ "/" ++ ty ++ ".json?limit=" ++ toString limit
    ∧ get_feed_url url ty limit (some ⟨some a, ob, oc⟩)
        = get_feed_url url ty limit none ++ "&after=" ++ a ++ countSuffix oc
    ∧ get_feed_url url ty limit (some ⟨none, some b, oc⟩)
        = get_feed_url url ty limit none ++ "&before=" ++ b ++ countSuffix oc
    ∧ get_feed_url url ty limit (some ⟨none, none, oc⟩)
        = get_feed_url url ty limit none ++ countSuffix oc
    ∧ get_feed_url url ty limit (some ⟨none, none, none⟩)
        = get_feed_url url ty limit none := by
  refine ⟨rfl, ?_, ?_, ?_, rfl⟩ <;>
    cases oc <;>
    simp [get_feed_url, countSuffix, String.append_empty, String.append_assoc]

/-- C4 — Feed URL construction is a deterministic pure function of the
subreddit name, listing type, limit and options (in particular it does not
depend on the HTTP client), and for subreddit `astolfo`, listing `hot`,
limit 25, no options, the produced URL is exactly
`https://www.reddit.com/r/astolfo/hot.json?limit=25`. -/
theorem get_feed_url_deterministic (name ty : String) (c₁ c₂ : Client)
    (limit : Nat) (options : Option FeedOption) (resp : HttpResponse) :
    ((Subreddit.new_with_http_client name c₁).get_feed ty limit options resp).requests
      = ((Subreddit.new_with_http_client name c₂).get_feed ty limit options resp).requests
    ∧ ((Subreddit.new "astolfo").hot 25 none resp).requests
      = ["https://www.reddit.com/r/astolfo/hot.json?limit=25"] :=
  ⟨rfl, rfl⟩

/-- C5 — The comment-fetch URL is `<base>/<comments-path>.json?` followed by
`&depth=<depth>` if set, then `&limit=<limit>` if set, where the path segment
is `comments` for `latest_comments` and `comments/<article>` for
`article_comments`. -/
theorem get_comment_feed_url_spec (url ty article : String) (d l dep lim : Option Nat)
    (s : Subreddit) (resp : HttpResponse) :
    get_comment_feed_url url ty d l
        = url ++ "/" ++ ty ++ ".json?" ++ depthSuffix d ++ limitSuffix l
    ∧ (s.latest_comments dep lim resp).requests
        = [get_comment_feed_url s.url "comments" dep lim]
    ∧ (s.article_comments article dep lim resp).requests
        = [get_comment_feed_url s.url ("comments/" ++ article) dep lim] := by
  refine ⟨?_, rfl, rfl⟩
  cases d <;> cases l <;>
    simp [get_comment_feed_url, depthSuffix, limitSuffix, String.append_empty,
      String.append_assoc] <;> rfl

/-- C6 — Every operation issues exactly one HTTP GET; on transport failure
the error is returned immediately (as a network error), on a body that does
not decode it is returned immediately as a parse error; there is no retry and
the outcome is a fully decoded entity or an error, never a partial value. -/
theorem single_get_no_retry (s : Subreddit) (article : String) (limit : Nat)
    (options : Option FeedOption) (dep lim : Option Nat) (resp : HttpResponse) :
    ((s.moderators resp).requests.length = 1
      ∧ (s.moderators .failure).outcome = .err .network
      ∧ (s.moderators (.success .malformed)).outcome = .err .parse)
    ∧ ((s.hot limit options resp).requests.length = 1
      ∧ (s.hot limit options .failure).outcome = .err .network
      ∧ (s.hot limit options (.success .malformed)).outcome = .err .parse)
    ∧ ((s.rising limit options resp).requests.length = 1
      ∧ (s.rising limit options .failure).outcome = .err .network
      ∧ (s.rising limit options (.success .malformed)).outcome = .err .parse)
    ∧ ((s.top limit options resp).requests.length = 1
      ∧ (s.top limit options .failure).outcome = .err .network
      ∧ (s.top limit options (.success .malformed)).outcome = .err .parse)
    ∧ ((s.latest limit options resp).requests.length = 1
      ∧ (s.latest limit options .failure).outcome = .err .network
      ∧ (s.latest limit options (.success .malformed)).outcome = .err .parse)
    ∧ ((s.latest_comments dep lim resp).requests.length = 1
      ∧ (s.latest_comments dep lim .failure).outcome = .err .network
      ∧ (s.latest_comments dep lim (.success .malformed)).outcome = .err .parse)
    ∧ ((s.article_comments article dep lim resp).requests.length = 1
      ∧ (s.article_comments article dep lim .failure).outcome = .err .network
      ∧ (s.article_comments article dep lim (.success .malformed)).outcome = .err .parse) := by
  refine ⟨⟨rfl, rfl, rfl⟩, ⟨rfl, rfl, rfl⟩, ⟨rfl, rfl, rfl⟩, ⟨rfl, rfl, rfl⟩, ⟨rfl, rfl, rfl⟩,
    ⟨rfl, ?_, ?_⟩, ⟨rfl, ?_, ?_⟩⟩ <;>
    simp [Subreddit.latest_comments, Subreddit.article_comments, Subreddit.get_comment_feed,
      decodeCommentSeq, decodeComment]

/-- C7 — No operation mutates the client: after any of the seven public
operations the `Subreddit` value (name, base URL, client handle) is exactly
the one from construction. -/
theorem operations_do_not_mutate (s : Subreddit) (name article : String) (c : Client)
    (limit : Nat) (options : Option FeedOption) (dep lim : Option Nat)
    (resp : HttpResponse) :
    (s.moderators resp).self = s
    ∧ (s.hot limit options resp).self = s
    ∧ (s.rising limit options resp).self = s
    ∧ (s.top limit options resp).self = s
    ∧ (s.latest limit options resp).self = s
    ∧ (s.latest_comments dep lim resp).self = s
    ∧ (s.article_comments article dep lim resp).self = s
    ∧ ((Subreddit.new_with_http_client name c).moderators resp).self.name = name
    ∧ ((Subreddit.new_with_http_client name c).moderators resp).self.url
        = "https://www.reddit.com/r/" ++ name
    ∧ ((Subreddit.new_with_http_client name c).moderators resp).self.client = c :=
  ⟨rfl, rfl, rfl, rfl, rfl, rfl, rfl, rfl, rfl, rfl⟩

/-- C8 — `moderators()` issues a GET to exactly `<base>/about/moderators/.json`
and decodes the response into the Moderators entity. -/
theorem moderators_url_and_decode (s : Subreddit) (m : Moderators) (resp : HttpResponse) :
    (s.moderators resp).requests = [s.url ++ "/about/moderators/.json"]
    ∧ (s.moderators (.success (.moderatorsBody m))).outcome = .ok m :=
  ⟨rfl, rfl⟩

/-- C9 — `Subreddit::new name` equals `Subreddit::new_with_http_client` with
the default client; both constructors store the name verbatim and derive the
base URL `https://www.reddit.com/r/<name>`, so all URL building (feed and
comment fetches) behaves identically for both. -/
theorem new_equiv_new_with_http_client (name ty : String) (limit : Nat)
    (options : Option FeedOption) (c : Client) :
    Subreddit.new name = Subreddit.new_with_http_client name Client.new
    ∧ (Subreddit.new name).name = name
    ∧ (Subreddit.new name).url = "https://www.reddit.com/r/" ++ name
    ∧ (Subreddit.new_with_http_client name c).name = name
    ∧ (Subreddit.new_with_http_client name c).url = "https://www.reddit.com/r/" ++ name
    ∧ (∀ resp, ((Subreddit.new name).get_feed ty limit options resp).requests
        = ((Subreddit.new_with_http_client name c).get_feed ty limit options resp).requests)
    ∧ (∀ dep lim resp,
        ((Subreddit.new name).get_comment_feed ty dep lim resp).requests
          = ((Subreddit.new_with_http_client name c).get_comment_feed ty dep lim resp).requests
        ∧ ((Subreddit.new name).get_comment_feed ty dep lim resp).outcome
          = ((Subreddit.new_with_http_client name c).get_comment_feed ty dep lim resp).outcome) :=
  ⟨rfl, rfl, rfl, rfl, rfl, fun _ => rfl, fun _ _ _ => ⟨rfl, rfl⟩⟩

/-- C10 — The branch predicate looks at the whole URL, not just the appended
path segment: for any subreddit whose name contains `comments/`,
`latest_comments` (path segment `comments`) takes the sequence-decoding
branch. -/
theorem latest_comments_substring_branch (name : String) (c : Client)
    (dep lim : Option Nat) (resp : HttpResponse)
    (h : strContains name "comments/" = true) :
    ((Subreddit.new_with_http_client name c).latest_comments dep lim resp).outcome
      = seqBranch resp := by
  show ((Subreddit.new_with_http_client name c).get_comment_feed "comments" dep lim resp).outcome
      = seqBranch resp
  rw [get_comment_feed_outcome_eq,
    show (Subreddit.new_with_http_client name c).url = "https://www.reddit.com/r/" ++ name
      from rfl,
    strContains_latest_url name "comments/" dep lim h]
  rfl

/-- Witness for C10: the subreddit name `ask_comments/serious` contains
`comments/`, and `latest_comments` on it decodes via the sequence branch — in
particular a single-object body yields a parse error instead of the object. -/
theorem latest_comments_substring_branch_witness :
    strContains "ask_comments/serious" "comments/" = true
    ∧ ((Subreddit.new_with_http_client "ask_comments/serious" Client.new).latest_comments
        none none (.success (.commentSingle ⟨"c"⟩))).outcome
      = seqBranch (.success (.commentSingle ⟨"c"⟩)) :=
  ⟨by decide, latest_comments_substring_branch "ask_comments/serious" Client.new none none
    (.success (.commentSingle ⟨"c"⟩)) (by decide)⟩
